import Mathlib

/- Formal model of the chat-context persistence subsystem of this repository:
   persist_chat.py (context/agent/log serialization and deserialization) and
   the store boundary of mem_graph_helper.py (history wire encoding).
   Python strings are modelled as their sequences of code points, Python dicts
   as association lists in insertion order, and Python exceptions as the
   `Except String` monad. -/

/-- Plain dynamically-typed values as passed through the persistence layer.
`obj` stands for a runtime object with no representation in the interchange
format (for example a live handle); every other constructor is representable. -/
inductive PyVal where
  | str : String → PyVal
  | int : Int → PyVal
  | bool : Bool → PyVal
  | none : PyVal
  | list : List PyVal → PyVal
  | dict : List (String × PyVal) → PyVal
  | obj : String → PyVal
deriving Repr

/-- Python truthiness of a value (`if x:`). -/
def pyTruthy : PyVal → Bool
  | .str s => s ≠ ""
  | .int n => n ≠ 0
  | .bool b => b
  | .none => false
  | .list xs => !xs.isEmpty
  | .dict kvs => !kvs.isEmpty
  | .obj _ => true

/-- `d.get(k, None)`-style lookup on a dict modelled as an association list. -/
def dGet (k : String) : List (String × PyVal) → Option PyVal
  | [] => Option.none
  | (k', v) :: rest => if k = k' then some v else dGet k rest

/-- A value expected to be a dict; anything else is a `TypeError`. -/
def asDict : PyVal → Except String (List (String × PyVal))
  | .dict d => .ok d
  | _ => .error "TypeError: expected a dict"

/-- A value expected to be a list; anything else is a `TypeError`. -/
def asList : PyVal → Except String (List PyVal)
  | .list l => .ok l
  | _ => .error "TypeError: expected a list"

/-- Modelled from the spec: the repository imports `datetime` from outside.
Within this subsystem datetimes are produced only by `fromtimestamp(0)` and
`fromisoformat` and consumed only by `isoformat`, so a datetime is modelled by
its ISO-8601 rendering, making `isoformat`/`fromisoformat` mutual inverses
exactly as the library guarantees. -/
structure DateTime where
  iso : String
deriving Repr, DecidableEq

/-- `datetime.isoformat()`. -/
def DateTime.isoformat (d : DateTime) : String := d.iso

/-- `datetime.fromisoformat(s)`. -/
def datetime_fromisoformat (s : String) : DateTime := ⟨s⟩

/-- `datetime.fromtimestamp(0)`: the epoch-zero sentinel timestamp. -/
def epochZero : DateTime := ⟨"1970-01-01T00:00:00"⟩

/-- Modelled from the spec: the `AgentContextType` enum imported from the
agent runtime, with members `USER`, `TASK`, `BACKGROUND`. -/
inductive AgentContextType where
  | USER
  | TASK
  | BACKGROUND
deriving Repr, DecidableEq

/-- The enum member's string value (`.value`). -/
def AgentContextType.value : AgentContextType → String
  | .USER => "user"
  | .TASK => "task"
  | .BACKGROUND => "background"

/-- `AgentContextType(v)`: look an enum member up by value; an unknown value
raises `ValueError`. -/
def AgentContextType.ofValue (v : String) : Except String AgentContextType :=
  if v = "user" then .ok .USER
  else if v = "task" then .ok .TASK
  else if v = "background" then .ok .BACKGROUND
  else .error "ValueError: not a valid AgentContextType"

/-- Modelled from the spec: an agent's conversation history is opaque to the
persistence layer beyond its `serialize()`/`deserialize()` contract, so it is
modelled by its serialized plain-data form; `history.serialize()` and
`deserialize_history` are then mutually inverse by construction, which is the
contract the spec states. -/
def deserialize_history (v : PyVal) : PyVal := v

/-- Modelled from the spec: one node of the agent chain. The source keeps the
superior/subordinate links as `_`-prefixed entries of the mutable `data` bag
holding live `Agent` objects; here the chain order itself carries the links
(the chain is represented root-first as a `List Agent`), and `data` holds the
remaining, non-link entries. `config`/`context` back-references are not
persisted state and are omitted. -/
structure Agent where
  number : Int
  data : List (String × PyVal)
  history : PyVal
deriving Repr

/-- `Agent(n, config, context)`: a freshly constructed agent with an empty
data bag and a new (empty) history, modelled from the spec. -/
def Agent.fresh (n : Int) : Agent :=
  { number := n, data := [], history := .str "" }

/-- Modelled from the spec: one entry of the log replay model. -/
structure LogItem where
  no : Int
  type : String
  heading : String
  content : String
  kvps : Option (List (String × PyVal))
  temp : Bool
deriving Repr

/-- Modelled from the spec: `LogItem.output()` emits the entry's plain-data
record with its `no`/`type`/`heading`/`content`/`kvps`/`temp` fields, an
absent `kvps` emitted as null. -/
def LogItem.output (it : LogItem) : PyVal :=
  .dict [("no", .int it.no),
         ("type", .str it.type),
         ("heading", .str it.heading),
         ("content", .str it.content),
         ("kvps", match it.kvps with
                  | some m => .dict m
                  | Option.none => .none),
         ("temp", .bool it.temp)]

/-- Modelled from the spec: the log replay model — a guid, the ordered entry
list, the two replay-progress counters and the pending-update indices. -/
structure Log where
  guid : String
  logs : List LogItem
  progress : String
  progress_no : Int
  updates : List Int
deriving Repr

/-- Modelled from the spec: the initial value of the `progress` counter, as
established by `Log.set_initial_progress()`. -/
def initialProgress : String := ""

/-- Modelled from the spec: the initial value of the `progress_no` counter, as
established by `Log.set_initial_progress()`. -/
def initialProgressNo : Int := 0

/-- Modelled from the spec: a persisted conversation context. `agents` is the
agent chain reached from `agent0`, root first; `streaming_agent` is the
non-owning reference into the chain (absent or a node). -/
structure AgentContext where
  id : String
  name : Option String
  created_at : Option DateTime
  last_message : Option DateTime
  type : AgentContextType
  agents : List Agent
  streaming_agent : Option Agent
  log : Log
  paused : Bool
deriving Repr

/-- `CHATS_FOLDER` constant of persist_chat.py. -/
def CHATS_FOLDER : String := "tmp/chats"

/-- `LOG_SIZE` constant of persist_chat.py. -/
def LOG_SIZE : Nat := 1000

/-- Python negative-start slicing `xs[-n:]`: the suffix of the most recent
`n` elements (the whole list when it is shorter than `n`). -/
def pySliceLast (n : Nat) (xs : List α) : List α :=
  xs.drop (xs.length - n)

/-- Python `k.startswith("_")`: whether the string's first code point is the
underscore. -/
def pyStartsWithU (s : String) : Bool :=
  decide (s.data.head? = some '_')

/-- persist_chat.py `_serialize_agent`: the agent record, its `data` bag
filtered to drop internal-use keys beginning with `_` (in the source this is
also what strips the live superior/subordinate links, whose keys carry that
underscore prefix), and the history in its serialized form. -/
def _serialize_agent (a : Agent) : PyVal :=
  .dict [("number", .int a.number),
         ("data", .dict (a.data.filter (fun kv => !pyStartsWithU kv.1))),
         ("history", a.history)]

/-- persist_chat.py `_serialize_log`: guid, the last `LOG_SIZE` entries in
order via `LogItem.output`, and the progress counters verbatim. -/
def _serialize_log (log : Log) : PyVal :=
  .dict [("guid", .str log.guid),
         ("logs", .list ((pySliceLast LOG_SIZE log.logs).map LogItem.output)),
         ("progress", .str log.progress),
         ("progress_no", .int log.progress_no)]

/-- persist_chat.py `_serialize_context`: the context record; timestamps fall
back to the epoch-zero sentinel when absent, the agent chain is walked from
`agent0` via the subordinate links (the list order of the model), and
`streaming_agent` is emitted as its ordinal, `0` when absent. -/
def _serialize_context (c : AgentContext) : PyVal :=
  .dict [("id", .str c.id),
         ("name", match c.name with
                  | some s => .str s
                  | Option.none => .none),
         ("created_at", .str (match c.created_at with
                              | some d => d.isoformat
                              | Option.none => epochZero.isoformat)),
         ("type", .str c.type.value),
         ("last_message", .str (match c.last_message with
                                | some d => d.isoformat
                                | Option.none => epochZero.isoformat)),
         ("agents", .list (c.agents.map _serialize_agent)),
         ("streaming_agent", .int (match c.streaming_agent with
                                   | some a => a.number
                                   | Option.none => 0)),
         ("log", _serialize_log c.log)]

/-- One iteration of the entry loop of persist_chat.py `_deserialize_log`:
rebuild the `LogItem` at running index `i`. `type` and `kvps` are read with
bracket access (`item_data["type"]`, `item_data["kvps"]`) and so raise
`KeyError` when missing; `heading`/`content`/`temp` use `.get` with defaults;
a falsy `kvps` value becomes an absent mapping, a truthy one must be a dict.
Values present under a known key are expected well-typed per the data model. -/
def deserializeLogItem (i : Nat) (v : PyVal) : Except String LogItem := do
  let d ← asDict v
  let ty ← match dGet "type" d with
    | some (.str s) => Except.ok s
    | some _ => Except.error "TypeError: type"
    | Option.none => Except.error "KeyError: type"
  let heading ← match dGet "heading" d with
    | some (.str s) => Except.ok s
    | some _ => Except.error "TypeError: heading"
    | Option.none => Except.ok ""
  let content ← match dGet "content" d with
    | some (.str s) => Except.ok s
    | some _ => Except.error "TypeError: content"
    | Option.none => Except.ok ""
  let kv ← match dGet "kvps" d with
    | Option.none => Except.error "KeyError: kvps"
    | some w =>
      if pyTruthy w then
        match w with
        | .dict m => Except.ok (some m)
        | _ => Except.error "TypeError: kvps"
      else Except.ok Option.none
  let temp ← match dGet "temp" d with
    | some (.bool b) => Except.ok b
    | some _ => Except.error "TypeError: temp"
    | Option.none => Except.ok false
  Except.ok { no := (i : Int), type := ty, heading := heading,
              content := content, kvps := kv, temp := temp }

/-- The entry loop of persist_chat.py `_deserialize_log`: rebuild every entry
in order, assigning `no` as the running index starting at `i`. -/
def deserializeLogItems : Nat → List PyVal → Except String (List LogItem)
  | _, [] => Except.ok []
  | i, v :: vs => do
    let it ← deserializeLogItem i v
    let rest ← deserializeLogItems (i + 1) vs
    Except.ok (it :: rest)

/-- `data.get("guid", str(uuid.uuid4()))` of `_deserialize_log`: the stored
guid, or a fresh uuid when absent (modelled as a fixed fresh string, uuid
generation being external). -/
def logGuidField : Option PyVal → String
  | some (.str s) => s
  | _ => "fresh-uuid4"

/-- `data.get("logs", [])` of `_deserialize_log`: the stored entry records,
defaulting to none. -/
def logEntriesField : Option PyVal → Except String (List PyVal)
  | Option.none => Except.ok []
  | some (.list l) => Except.ok l
  | some _ => Except.error "TypeError: logs"

/-- persist_chat.py `_deserialize_log`. The caller passes `data.get("log",
None)`; on an absent field the source dereferences `None` and raises
(`AttributeError`). Guid falls back to a fresh uuid, progress counters are
reset to their initial state, entries are renumbered `0..`, and `updates`
collects the same running indices. -/
def _deserialize_log (data : Option PyVal) : Except String Log := do
  match data with
  | Option.none => Except.error "AttributeError: NoneType has no attribute get"
  | some v => do
    let d ← asDict v
    let entries ← logEntriesField (dGet "logs" d)
    let items ← deserializeLogItems 0 entries
    Except.ok { guid := logGuidField (dGet "guid" d), logs := items,
                progress := initialProgress, progress_no := initialProgressNo,
                updates := (List.range items.length).map Int.ofNat }

/-- One iteration of persist_chat.py `_deserialize_agents`: rebuild an agent
from its record. `ag["number"]` is a bracket access and raises `KeyError`
when missing; `data` and `history` use `.get` with defaults; the history is
restored through the history collaborator's deserialize contract. -/
def deserializeAgentRec (v : PyVal) : Except String Agent := do
  let d ← asDict v
  let n ← match dGet "number" d with
    | some (.int n) => Except.ok n
    | some _ => Except.error "TypeError: number"
    | Option.none => Except.error "KeyError: number"
  let dat ← match dGet "data" d with
    | some (.dict m) => Except.ok m
    | some _ => Except.error "TypeError: data"
    | Option.none => Except.ok []
  let h := (dGet "history" d).getD (.str "")
  Except.ok { number := n, data := dat, history := deserialize_history h }

/-- The loop of persist_chat.py `_deserialize_agents` over the agent records,
in order. The superior/subordinate wiring between consecutive nodes is the
list order of the model. -/
def deserializeAgentRecs : List PyVal → Except String (List Agent)
  | [] => Except.ok []
  | r :: rs => do
    let a ← deserializeAgentRec r
    let tl ← deserializeAgentRecs rs
    Except.ok (a :: tl)

/-- persist_chat.py `_deserialize_agents`: rebuild the chain; an empty record
sequence synthesizes a single fresh root agent (`zero or Agent(0, ...)`). -/
def _deserialize_agents (recs : List PyVal) : Except String (List Agent) :=
  match deserializeAgentRecs recs with
  | .error e => .error e
  | .ok [] => .ok [Agent.fresh 0]
  | .ok l => .ok l

/-- Python `!=` comparison of an agent's int ordinal against the stored
`streaming_agent` value (negated): equal only when the stored value is the
same int. -/
def pyIntEq (n : Int) : PyVal → Bool
  | .int m => n == m
  | _ => false

/-- The streaming-agent walk of persist_chat.py `_deserialize_context`: from
the chain root, follow subordinate links while the node's `number` differs
from the stored ordinal; ends with the matching node or, when the chain is
exhausted, `None`. -/
def resolveStreaming : List Agent → PyVal → Option Agent
  | [], _ => Option.none
  | a :: rest, t => if pyIntEq a.number t then some a else resolveStreaming rest t

/-- A timestamp field of `_deserialize_context`:
`datetime.fromisoformat(data.get(k, epoch-zero-iso))`. -/
def ctxTimestampField : Option PyVal → Except String DateTime
  | some (.str s) => Except.ok (datetime_fromisoformat s)
  | some _ => Except.error "TypeError: timestamp"
  | Option.none => Except.ok (datetime_fromisoformat epochZero.isoformat)

/-- The `type` field of `_deserialize_context`:
`AgentContextType(data.get("type", AgentContextType.USER.value))`. -/
def ctxTypeField : Option PyVal → Except String AgentContextType
  | some (.str s) => AgentContextType.ofValue s
  | some _ => Except.error "TypeError: type"
  | Option.none => AgentContextType.ofValue AgentContextType.USER.value

/-- The `agents` field of `_deserialize_context`: `data.get("agents", [])`. -/
def ctxAgentsField : Option PyVal → Except String (List PyVal)
  | Option.none => Except.ok []
  | some (.list l) => Except.ok l
  | some _ => Except.error "TypeError: agents"

/-- The `id` field of `_deserialize_context`: `data.get("id", None)`; with no
stored id the runtime issues a new one (modelled as a fixed fresh string). -/
def ctxIdField : Option PyVal → String
  | some (.str s) => s
  | _ => "fresh-context-id"

/-- The `name` field of `_deserialize_context`: `data.get("name", None)`. -/
def ctxNameField : Option PyVal → Option String
  | some (.str s) => some s
  | _ => Option.none

/-- persist_chat.py `_deserialize_context`: rebuild a context from its plain
record. The log is rebuilt first from `data.get("log", None)`; timestamps and
`type` fall back to legacy defaults (epoch-zero, `USER`); an absent `id`
makes the runtime issue a new one; the agent chain is rebuilt via
`_deserialize_agents`, the streaming agent resolved by the chain walk, and
the context starts unpaused. -/
def _deserialize_context (data : PyVal) : Except String AgentContext := do
  let d ← asDict data
  let log ← _deserialize_log (dGet "log" d)
  let created ← ctxTimestampField (dGet "created_at" d)
  let ty ← ctxTypeField (dGet "type" d)
  let lastMsg ← ctxTimestampField (dGet "last_message" d)
  let agentRecs ← ctxAgentsField (dGet "agents" d)
  let chain ← _deserialize_agents agentRecs
  Except.ok
    { id := ctxIdField (dGet "id" d)
      name := ctxNameField (dGet "name" d)
      created_at := some created
      last_message := some lastMsg
      type := ty
      agents := chain
      streaming_agent := resolveStreaming chain ((dGet "streaming_agent" d).getD (.int 0))
      log := log
      paused := false }

mutual

/-- Whether a value contains, at any depth, something with no representation
in the interchange format (a live object): exactly when `json.dumps` of the
value, with no `default`, raises. -/
def containsObj : PyVal → Bool
  | .obj _ => true
  | .list xs => listContainsObj xs
  | .dict kvs => dictContainsObj kvs
  | .str _ => false
  | .int _ => false
  | .bool _ => false
  | .none => false

/-- `containsObj` over a list's elements. -/
def listContainsObj : List PyVal → Bool
  | [] => false
  | x :: xs => containsObj x || listContainsObj xs

/-- `containsObj` over a dict's values. -/
def dictContainsObj : List (String × PyVal) → Bool
  | [] => false
  | (_, v) :: kvs => containsObj v || dictContainsObj kvs

end

/-- persist_chat.py `is_json_serializable` (inner helper of
`_safe_json_serialize`): whether `json.dumps(item)` succeeds. -/
def is_json_serializable (item : PyVal) : Bool :=
  !containsObj item

/-- persist_chat.py `serializer` (the `default=` hook handed to `json.dumps`
by `_safe_json_serialize`): a dict keeps its serializable entries, a
list/tuple its serializable elements, a serializable scalar itself, and
anything else becomes `None`. -/
def serializer (o : PyVal) : PyVal :=
  match o with
  | .dict kvs => .dict (kvs.filter (fun kv => is_json_serializable kv.2))
  | .list xs => .list (xs.filter is_json_serializable)
  | o => if is_json_serializable o then o else .none

mutual

/-- The value encoded by `json.dumps(obj, default=serializer)`, as performed
by the library: dicts and lists are containers the encoder recurses into
natively, scalars are emitted as themselves, and `default` is invoked only on
a value the encoder cannot represent (here `obj`), whose replacement — always
the scalar produced by `serializer` on a non-container non-serializable
value — is then encoded. -/
def jsonDumpsDefault : PyVal → PyVal
  | .dict kvs => .dict (jsonDumpsDefaultDict kvs)
  | .list xs => .list (jsonDumpsDefaultList xs)
  | .obj s => serializer (.obj s)
  | .str s => .str s
  | .int n => .int n
  | .bool b => .bool b
  | .none => .none

/-- `jsonDumpsDefault` over a list's elements. -/
def jsonDumpsDefaultList : List PyVal → List PyVal
  | [] => []
  | x :: xs => jsonDumpsDefault x :: jsonDumpsDefaultList xs

/-- `jsonDumpsDefault` over a dict's entries. -/
def jsonDumpsDefaultDict : List (String × PyVal) → List (String × PyVal)
  | [] => []
  | (k, v) :: kvs => (k, jsonDumpsDefault v) :: jsonDumpsDefaultDict kvs

end

/-- persist_chat.py `_safe_json_serialize`, modelled as the JSON value its
output text represents (the rendering to text is the library's). -/
def _safe_json_serialize (o : PyVal) : PyVal :=
  jsonDumpsDefault o

/-- A history record as interchanged with the store:
`(role : "ai" or "user", content)`. -/
structure HistRec where
  role : String
  content : String
deriving Repr, DecidableEq

/-- The opening-brace code point, `\x7b`. -/
def lbraceC : Char := Char.ofNat 123

/-- The closing-brace code point, `\x7d`. -/
def rbraceC : Char := Char.ofNat 125

/-- Modelled from the spec: the string-body escaping of the external JSON
encoder — quote and backslash get a backslash prefix (the modelled encoder
leaves other code points verbatim). -/
def escChars : List Char → List Char
  | [] => []
  | c :: cs =>
    if c = '"' ∨ c = '\\' then '\\' :: c :: escChars cs else c :: escChars cs

/-- The text of one history record,
`\x7b"role": "..", "content": ".."\x7d`, with the library's default
`', '`/`': '` separators. -/
def recChars (r : HistRec) : List Char :=
  lbraceC :: "\"role\": \"".data
    ++ escChars r.role.data
    ++ ('"' :: ", \"content\": \"".data)
    ++ escChars r.content.data
    ++ ['"', rbraceC]

/-- The comma-joined record bodies of a history array. -/
def joinRecs : List HistRec → List Char
  | [] => []
  | [r] => recChars r
  | r :: rs => recChars r ++ ',' :: ' ' :: joinRecs rs

/-- Modelled from the spec: `json.dumps(history)` — the JSON text of the
array of history records, as a code-point sequence. -/
def dumpChars (h : List HistRec) : List Char :=
  '[' :: (joinRecs h ++ [']'])

/-- Modelled from the spec: `json.dumps(history)` as a string. -/
def json_dumps_hist (h : List HistRec) : String :=
  String.mk (dumpChars h)

/-- Consume an expected literal prefix, yielding the rest of the input. -/
def dropLit : List Char → List Char → Option (List Char)
  | [], l => some l
  | c :: cs, d :: ds => if c = d then dropLit cs ds else Option.none
  | _ :: _, [] => Option.none

/-- Parse a JSON string body up to its closing quote, undoing the escaping;
yields the decoded code points and the input after the closing quote. -/
def parseStr : List Char → Option (List Char × List Char)
  | [] => Option.none
  | '"' :: rest => some ([], rest)
  | '\\' :: c :: rest =>
    if c = '"' ∨ c = '\\' then
      (parseStr rest).map (fun p => (c :: p.1, p.2))
    else Option.none
  | c :: rest => (parseStr rest).map (fun p => (c :: p.1, p.2))

/-- Parse one history-record object, yielding the record and the rest. -/
def parseRec (l : List Char) : Option (HistRec × List Char) := do
  let l1 ← dropLit (lbraceC :: "\"role\": \"".data) l
  let (role, l2) ← parseStr l1
  let l3 ← dropLit ", \"content\": \"".data l2
  let (content, l4) ← parseStr l3
  let l5 ← dropLit [rbraceC] l4
  some ({ role := String.mk role, content := String.mk content }, l5)

/-- Parse the comma-separated records up to the closing bracket; `fuel`
bounds the recursion (any fuel at least the record count suffices). -/
def parseRecsAux : Nat → List Char → Option (List HistRec)
  | 0, _ => Option.none
  | fuel + 1, l => do
    let (r, rest) ← parseRec l
    match rest with
    | [']'] => some [r]
    | ',' :: ' ' :: rest2 => (parseRecsAux fuel rest2).map (r :: ·)
    | _ => Option.none

/-- Modelled from the spec: `json.loads` of a history-array text — the
decoder for the texts `json_dumps_hist` produces; any other input may fail. -/
def parseChars : List Char → Option (List HistRec)
  | '[' :: ']' :: [] => some []
  | '[' :: rest => parseRecsAux rest.length rest
  | _ => Option.none

/-- Modelled from the spec: `json.loads` at the store boundary. -/
def json_loads_hist (s : String) : Option (List HistRec) :=
  parseChars s.data

/-- The external key-value store's state: its keys and string payloads. -/
def Store := List (String × String)

/-- The store's `SET key value` command (a later `GET` sees the new value). -/
def storeSet (st : Store) (k v : String) : Store :=
  (k, v) :: st

/-- The store's `GET key` command; `Option.none` is the `(nil)` marker. -/
def storeGet (st : Store) (k : String) : Option String :=
  List.lookup k st

/-- Python `s[1:-1]`: the string without its first and last code point. -/
def pyStrip1 (s : String) : String :=
  String.mk ((s.data.drop 1).dropLast)

/-- mem_graph_helper.py `MemGraphHelper.save_history`: store, under key
`chat_history:<id>`, the JSON text of the records wrapped in literal
single-quote characters. -/
def save_history (st : Store) (cid : String) (h : List HistRec) : Store :=
  storeSet st ("chat_history:" ++ cid) ("'" ++ json_dumps_hist h ++ "'")

/-- mem_graph_helper.py `MemGraphHelper.load_history`: read the key's payload
(`(nil)` meaning no value, yielding `[]`), strip one leading and one trailing
single quote when both are present, JSON-decode, and yield `[]` on a decode
error. -/
def load_history (st : Store) (cid : String) : List HistRec :=
  match storeGet st ("chat_history:" ++ cid) with
  | Option.none => []
  | some s =>
    let s2 := if s.data.head? = some '\'' ∧ s.data.getLast? = some '\''
              then pyStrip1 s else s
    match json_loads_hist s2 with
    | some h => h
    | Option.none => []

/-- persist_chat.py `get_chat_folder_path`: the marker directory for a
context id (`files.get_abs_path` modelled as path concatenation under the
chats root). -/
def get_chat_folder_path (ctxid : String) : String :=
  CHATS_FOLDER ++ "/" ++ ctxid

/-- Modelled from the spec: `files.delete_dir` — remove the directory (and
its subtree) from the local filesystem, modelled as a list of directories. -/
def files_delete_dir (dirs : List String) (path : String) : List String :=
  dirs.filter (fun q => q ≠ path)

/-- persist_chat.py `remove_chat`: delete the local marker directory and
overwrite the stored history of the id with the empty list. -/
def remove_chat (dirs : List String) (st : Store) (ctxid : String) :
    List String × Store :=
  (files_delete_dir dirs (get_chat_folder_path ctxid),
   save_history st ctxid [])

/-- What one serialize/deserialize cycle does to a stored `kvps` mapping: a
falsy value — in particular an empty mapping — collapses to an absent one. -/
def normKvps (k : Option (List (String × PyVal))) :
    Option (List (String × PyVal)) :=
  match k with
  | some m => if m.isEmpty then Option.none else some m
  | Option.none => Option.none

/-- What one serialize/deserialize cycle does to a log entry: `no` is
renumbered to the running index and `kvps` normalised. -/
def roundItem (i : Nat) (it : LogItem) : LogItem :=
  { no := (i : Int), type := it.type, heading := it.heading,
    content := it.content, kvps := normKvps it.kvps, temp := it.temp }

/-- `roundItem` across a list of entries with a running index. -/
def renumber : Nat → List LogItem → List LogItem
  | _, [] => []
  | i, it :: its => roundItem i it :: renumber (i + 1) its

/-- What one serialize/deserialize cycle does to an agent: its data bag loses
the internal-use (`_`-prefixed) keys. -/
def roundAgent (a : Agent) : Agent :=
  { number := a.number,
    data := a.data.filter (fun kv => !pyStartsWithU kv.1),
    history := a.history }

/-- What one serialize/deserialize cycle does to the agent chain: an empty
chain is replaced by a synthesized fresh root. -/
def rtAgents (l : List Agent) : List Agent :=
  if l.isEmpty then [Agent.fresh 0] else l.map roundAgent

/-- The five log-entry fields the round-trip contract promises to preserve:
`type`, `heading`, `content`, `kvps`, `temp`. -/
def LogItem.core (it : LogItem) :
    String × String × String × Option (List (String × PyVal)) × Bool :=
  (it.type, it.heading, it.content, it.kvps, it.temp)

/-- Whether an entry's `kvps` survives a round trip unchanged: everything but
a present-and-empty mapping does. -/
def kvpsRoundOk (it : LogItem) : Bool :=
  match it.kvps with
  | some [] => false
  | _ => true

/-- A minimal agent record holding only the ordinal, for concrete probes. -/
def agRec (n : Int) : PyVal := .dict [("number", .int n)]

/-- A concrete stored record with a 3-node chain numbered 0,1,2 and stored
streaming ordinal 1. -/
def streamingProbeRec : PyVal :=
  .dict [("agents", .list [agRec 0, agRec 1, agRec 2]),
         ("streaming_agent", .int 1),
         ("log", .dict [("guid", .str "g"), ("logs", .list [])])]

/-- A log entry whose `kvps` is a present-but-empty mapping. -/
def emptyKvpsItem : LogItem :=
  { no := 7, type := "t", heading := "h", content := "c",
    kvps := some [], temp := false }

/-- A context satisfying the round-trip claim's stated hypotheses (no
internal-prefix data keys, representable values, initial progress counters)
while having absent timestamps, 1001 log entries and an empty `kvps`
mapping in each entry. -/
def overflowCtx : AgentContext :=
  { id := "cid", name := Option.none,
    created_at := Option.none, last_message := Option.none,
    type := .USER, agents := [Agent.fresh 0],
    streaming_agent := Option.none,
    log := { guid := "g", logs := List.replicate 1001 emptyKvpsItem,
             progress := initialProgress, progress_no := initialProgressNo,
             updates := [] },
    paused := false }

/-- A small concrete context with one agent carrying data, one log entry with
a non-empty `kvps`, both timestamps present and initial progress counters. -/
def probeCtx : AgentContext :=
  { id := "ctx-1", name := some "probe",
    created_at := some ⟨"2024-05-01T10:00:00"⟩,
    last_message := some ⟨"2024-05-02T11:30:00"⟩,
    type := .TASK,
    agents := [{ number := 0, data := [("k", .int 5)], history := .str "h0" },
               { number := 1, data := [], history := .str "h1" }],
    streaming_agent := some { number := 1, data := [], history := .str "h1" },
    log := { guid := "guid-1",
             logs := [{ no := 7, type := "ty", heading := "hd", content := "ct",
                        kvps := some [("a", .str "b")], temp := true }],
             progress := initialProgress, progress_no := initialProgressNo,
             updates := [3] },
    paused := false }

/-- Bind on a success short-circuits to the continuation. -/
theorem bind_ok (x : α) (f : α → Except String β) :
    (Except.ok x : Except String α) >>= f = f x := rfl

/-- Bind on a failure propagates the failure. -/
theorem bind_err (e : String) (f : α → Except String β) :
    (Except.error e : Except String α) >>= f = Except.error e := rfl

/-- Rebuilding a log entry from a serialized one: the running index replaces
`no`, the five core fields survive with `kvps` normalised. -/
theorem deserializeLogItem_output (i : Nat) (it : LogItem) :
    deserializeLogItem i (LogItem.output it) = Except.ok (roundItem i it) := by
  rcases it with ⟨no, ty, hd, ct, kv, tp⟩
  rcases kv with _ | ⟨_ | ⟨kv0, kvs⟩⟩ <;> rfl

/-- Rebuilding the serialized entries of a log: `renumber` from the running
index. -/
theorem deserializeLogItems_output (its : List LogItem) :
    ∀ i, deserializeLogItems i (its.map LogItem.output)
      = Except.ok (renumber i its) := by
  induction its with
  | nil => intro i; rfl
  | cons it its ih =>
    intro i
    simp only [List.map_cons, deserializeLogItems, deserializeLogItem_output, ih]
    rfl

/-- Renumbering keeps the entry count. -/
theorem renumber_length (its : List LogItem) :
    ∀ i, (renumber i its).length = its.length := by
  induction its with
  | nil => intro i; rfl
  | cons it its ih => intro i; simp [renumber, ih]

/-- Log deserialization on a dict record, given its entry list and the
rebuilt items. -/
theorem deserialize_log_some (d : List (String × PyVal)) (entries : List PyVal)
    (items : List LogItem)
    (h1 : logEntriesField (dGet "logs" d) = Except.ok entries)
    (h2 : deserializeLogItems 0 entries = Except.ok items) :
    _deserialize_log (some (.dict d)) = Except.ok
      { guid := logGuidField (dGet "guid" d), logs := items,
        progress := initialProgress, progress_no := initialProgressNo,
        updates := (List.range items.length).map Int.ofNat } := by
  simp only [_deserialize_log, asDict, bind_ok, h1, h2]

/-- Deserializing a serialized log: the guid survives, the (truncated)
entries come back renumbered with normalised `kvps`, the progress counters
are reset and `updates` lists every rebuilt index. -/
theorem deserialize_serialize_log (L : Log) :
    _deserialize_log (some (_serialize_log L)) = Except.ok
      { guid := L.guid, logs := renumber 0 (pySliceLast LOG_SIZE L.logs),
        progress := initialProgress, progress_no := initialProgressNo,
        updates := (List.range (pySliceLast LOG_SIZE L.logs).length).map Int.ofNat } := by
  have h := deserialize_log_some
    [("guid", .str L.guid),
     ("logs", .list ((pySliceLast LOG_SIZE L.logs).map LogItem.output)),
     ("progress", .str L.progress),
     ("progress_no", .int L.progress_no)]
    ((pySliceLast LOG_SIZE L.logs).map LogItem.output)
    (renumber 0 (pySliceLast LOG_SIZE L.logs))
    rfl
    (deserializeLogItems_output (pySliceLast LOG_SIZE L.logs) 0)
  rw [show (some (_serialize_log L) : Option PyVal) = some (.dict
    [("guid", .str L.guid),
     ("logs", .list ((pySliceLast LOG_SIZE L.logs).map LogItem.output)),
     ("progress", .str L.progress),
     ("progress_no", .int L.progress_no)]) from rfl, h, renumber_length]
  rfl

/-- Deserializing a serialized agent record: the data bag comes back with its
internal-prefix keys dropped. -/
theorem deserializeAgentRec_serialize (a : Agent) :
    deserializeAgentRec (_serialize_agent a) = Except.ok (roundAgent a) := rfl

/-- Deserializing a serialized agent-record list, element by element. -/
theorem deserializeAgentRecs_serialize (l : List Agent) :
    deserializeAgentRecs (l.map _serialize_agent)
      = Except.ok (l.map roundAgent) := by
  induction l with
  | nil => rfl
  | cons a l ih =>
    simp only [List.map_cons, deserializeAgentRecs,
      deserializeAgentRec_serialize, bind_ok, ih]

/-- Deserializing a serialized agent chain: `rtAgents` (fresh root for an
empty chain, filtered data bags otherwise). -/
theorem deserialize_agents_serialize (l : List Agent) :
    _deserialize_agents (l.map _serialize_agent) = Except.ok (rtAgents l) := by
  cases l with
  | nil => rfl
  | cons a l =>
    unfold _deserialize_agents
    rw [deserializeAgentRecs_serialize]
    rfl

/-- Context deserialization on a dict record, given the successful results of
each field's rebuild. -/
theorem deserialize_context_ok (d : List (String × PyVal)) (lg : Log)
    (created lastMsg : DateTime) (ty : AgentContextType) (recs : List PyVal)
    (chain : List Agent)
    (h1 : _deserialize_log (dGet "log" d) = Except.ok lg)
    (h2 : ctxTimestampField (dGet "created_at" d) = Except.ok created)
    (h3 : ctxTypeField (dGet "type" d) = Except.ok ty)
    (h4 : ctxTimestampField (dGet "last_message" d) = Except.ok lastMsg)
    (h5 : ctxAgentsField (dGet "agents" d) = Except.ok recs)
    (h6 : _deserialize_agents recs = Except.ok chain) :
    _deserialize_context (.dict d) = Except.ok
      { id := ctxIdField (dGet "id" d), name := ctxNameField (dGet "name" d),
        created_at := some created, last_message := some lastMsg, type := ty,
        agents := chain,
        streaming_agent := resolveStreaming chain
          ((dGet "streaming_agent" d).getD (.int 0)),
        log := lg, paused := false } := by
  simp only [_deserialize_context, asDict, bind_ok, h1, h2, h3, h4, h5, h6]

/-- Deserializing a serialized context: identity, name and type survive,
absent timestamps come back as epoch-zero, the chain comes back through
`rtAgents`, the streaming reference is re-resolved from the emitted ordinal,
and the log comes back as in `deserialize_serialize_log`. -/
theorem deserialize_serialize (c : AgentContext) :
    _deserialize_context (_serialize_context c) = Except.ok
      { id := c.id, name := c.name,
        created_at := some (c.created_at.getD epochZero),
        last_message := some (c.last_message.getD epochZero),
        type := c.type,
        agents := rtAgents c.agents,
        streaming_agent := resolveStreaming (rtAgents c.agents)
          (.int (match c.streaming_agent with
                 | some a => a.number
                 | Option.none => 0)),
        log := { guid := c.log.guid,
                 logs := renumber 0 (pySliceLast LOG_SIZE c.log.logs),
                 progress := initialProgress, progress_no := initialProgressNo,
                 updates := (List.range (pySliceLast LOG_SIZE c.log.logs).length).map Int.ofNat },
        paused := false } := by
  obtain ⟨id, name, ca, lm, ty, ags, sa, lg, p⟩ := c
  refine Eq.trans (deserialize_context_ok _ _ (ca.getD epochZero)
    (lm.getD epochZero) ty (ags.map _serialize_agent) (rtAgents ags)
    (deserialize_serialize_log lg)
    (by cases ca <;> rfl)
    (by cases ty <;> rfl)
    (by cases lm <;> rfl)
    rfl
    (deserialize_agents_serialize ags)) ?_
  cases name <;> rfl

/-- An entry whose `kvps` is not a present-but-empty mapping keeps it under
normalisation. -/
theorem normKvps_of_ok (it : LogItem) (h : kvpsRoundOk it = true) :
    normKvps it.kvps = it.kvps := by
  rcases it with ⟨no, ty, hd, ct, kv, tp⟩
  rcases kv with _ | ⟨_ | ⟨kv0, kvs⟩⟩
  · rfl
  · exact absurd h (by simp [kvpsRoundOk])
  · rfl

/-- Renumbering keeps the five core fields when no entry has a
present-but-empty `kvps`. -/
theorem renumber_map_core (its : List LogItem) :
    ∀ i, (∀ it ∈ its, kvpsRoundOk it = true) →
      (renumber i its).map LogItem.core = its.map LogItem.core := by
  induction its with
  | nil => intro i _; rfl
  | cons it its ih =>
    intro i h
    have hhd := h it (List.mem_cons_self it its)
    have htl := fun x hx => h x (List.mem_cons_of_mem it hx)
    simp only [renumber, List.map_cons, ih (i + 1) htl]
    simp [roundItem, LogItem.core, normKvps_of_ok it hhd]

/-- The renumbered entries carry the running indices as their `no`. -/
theorem renumber_map_no (its : List LogItem) :
    ∀ i, (renumber i its).map LogItem.no
      = (List.range' i its.length).map Int.ofNat := by
  induction its with
  | nil => intro i; rfl
  | cons it its ih =>
    intro i
    simp only [renumber, List.map_cons, List.length_cons, List.range',
      ih (i + 1)]
    rfl

/-- C1 (corrected). For every context whose chain is non-empty (the data
model's invariant), whose agent data bags contain no `_`-prefixed keys and
only interchange-representable values, whose log progress counters are at
their initial values — and, as the counterexample forces, whose log holds at
most `LOG_SIZE` entries, none with a present-but-empty `kvps` mapping —
deserializing the serialized context reproduces the id, name, type, chain
(structure, data and history), log guid and entries' type/heading/content/
kvps/temp; timestamps are reproduced when present (an absent one comes back
as epoch-zero); log progress counters are reset (hence reproduced, being
initial) and entry `no`/`updates` are renumbered `0..len-1`. -/
theorem c1_round_trip (c : AgentContext)
    (hchain : c.agents ≠ [])
    (hnou : ∀ a ∈ c.agents, ∀ kv ∈ a.data, pyStartsWithU kv.1 = false)
    (hrep : ∀ a ∈ c.agents, ∀ kv ∈ a.data, containsObj kv.2 = false)
    (hprog : c.log.progress = initialProgress ∧
             c.log.progress_no = initialProgressNo)
    (hlen : c.log.logs.length ≤ LOG_SIZE)
    (hkv : ∀ it ∈ c.log.logs, kvpsRoundOk it = true) :
    ∃ c', _deserialize_context (_serialize_context c) = Except.ok c' ∧
      c'.id = c.id ∧ c'.name = c.name ∧
      c'.created_at = some (c.created_at.getD epochZero) ∧
      c'.last_message = some (c.last_message.getD epochZero) ∧
      c'.type = c.type ∧
      c'.agents = c.agents ∧
      c'.log.guid = c.log.guid ∧
      c'.log.logs.map LogItem.core = c.log.logs.map LogItem.core ∧
      c'.log.progress = c.log.progress ∧
      c'.log.progress_no = c.log.progress_no ∧
      c'.log.logs.map LogItem.no
        = (List.range c.log.logs.length).map Int.ofNat ∧
      c'.log.updates = (List.range c.log.logs.length).map Int.ofNat ∧
      c'.paused = false := by
  have hser := deserialize_serialize c
  have hs : pySliceLast LOG_SIZE c.log.logs = c.log.logs := by
    unfold pySliceLast
    rw [Nat.sub_eq_zero_of_le hlen, List.drop_zero]
  rw [hs] at hser
  have hA : rtAgents c.agents = c.agents := by
    have hne : c.agents.isEmpty = false := by
      simp [List.isEmpty_iff, hchain]
    unfold rtAgents
    rw [hne]
    simp only [Bool.false_eq_true, if_false]
    rw [List.map_congr_left (fun a ha => ?_)]
    · exact List.map_id' c.agents
    · rcases a with ⟨n, data, h⟩
      show Agent.mk n (data.filter _) h = Agent.mk n data h
      rw [List.filter_eq_self.mpr (fun kv hkv => ?_)]
      have := hnou _ ha kv hkv
      simp [this]
  refine ⟨_, hser, rfl, rfl, rfl, rfl, rfl, hA, rfl, ?_, hprog.1.symm,
    hprog.2.symm, ?_, rfl, rfl⟩
  · exact renumber_map_core c.log.logs 0 hkv
  · show (renumber 0 c.log.logs).map LogItem.no = _
    rw [renumber_map_no c.log.logs 0, List.range_eq_range']

/-- Witness for C1 at `probeCtx`: every hypothesis holds and the round trip
reproduces the fields. -/
theorem c1_round_trip_witness :
    ∃ c', _deserialize_context (_serialize_context probeCtx) = Except.ok c' ∧
      c'.id = probeCtx.id ∧ c'.name = probeCtx.name ∧
      c'.created_at = some (probeCtx.created_at.getD epochZero) ∧
      c'.last_message = some (probeCtx.last_message.getD epochZero) ∧
      c'.type = probeCtx.type ∧
      c'.agents = probeCtx.agents ∧
      c'.log.guid = probeCtx.log.guid ∧
      c'.log.logs.map LogItem.core = probeCtx.log.logs.map LogItem.core ∧
      c'.log.progress = probeCtx.log.progress ∧
      c'.log.progress_no = probeCtx.log.progress_no ∧
      c'.log.logs.map LogItem.no
        = (List.range probeCtx.log.logs.length).map Int.ofNat ∧
      c'.log.updates = (List.range probeCtx.log.logs.length).map Int.ofNat ∧
      c'.paused = false :=
  c1_round_trip probeCtx (by simp [probeCtx]) (by decide) (by decide)
    (by decide) (by decide) (by decide)

set_option maxRecDepth 8192 in
/-- Counterexample to C1 as stated: `overflowCtx` satisfies every stated
hypothesis (no `_`-prefixed data keys, representable values, initial
progress counters), yet the round trip does not reproduce its fields — its
1001 log entries are truncated to 1000 (and its absent `created_at` comes
back as epoch-zero, its entries' empty `kvps` mappings as absent). -/
theorem c1_round_trip_counterexample :
    ¬ ∃ c', _deserialize_context (_serialize_context overflowCtx) = Except.ok c' ∧
      c'.id = overflowCtx.id ∧ c'.name = overflowCtx.name ∧
      c'.created_at = overflowCtx.created_at ∧
      c'.last_message = overflowCtx.last_message ∧
      c'.type = overflowCtx.type ∧
      c'.agents = overflowCtx.agents ∧
      c'.log.guid = overflowCtx.log.guid ∧
      c'.log.logs.map LogItem.core = overflowCtx.log.logs.map LogItem.core := by
  rintro ⟨c', h, hid, hname, hca, hlm, hty, hag, hg, hcore⟩
  rw [deserialize_serialize] at h
  injection h with h2
  subst h2
  have hlen := congrArg List.length hcore
  simp only [List.length_map, renumber_length] at hlen
  rw [show overflowCtx.log.logs = List.replicate 1001 emptyKvpsItem from rfl]
    at hlen
  unfold pySliceLast LOG_SIZE at hlen
  simp only [List.length_drop, List.length_replicate] at hlen
  omega

/-- C2 (code bug). `json.dumps(obj, default=serializer)` invokes `default`
only on a leaf the encoder cannot represent, never on a dict or list (those
it encodes natively), so the filtering branches of `serializer` are
unreachable and a non-serializable value is replaced by null under its key
rather than the key being omitted: a dict with a live handle under `b` and
an int under `a` serializes with `b` retained and bound to null, not to the
claim's two-entry-minus-one shape. -/
theorem c2_nonserializable_becomes_null :
    _safe_json_serialize (.dict [("a", .int 1), ("b", .obj "live-handle")])
      = .dict [("a", .int 1), ("b", .none)] ∧
    dGet "b" [("a", PyVal.int 1), ("b", PyVal.none)] = some PyVal.none :=
  ⟨rfl, rfl⟩

/-- Rebuilding a log entry from a record with `type` present, `kvps` present
and null, and `heading`/`content`/`temp` absent: every default applies. -/
theorem deserializeLogItem_defaults (d : List (String × PyVal)) (ty : String)
    (i : Nat)
    (hty : dGet "type" d = some (.str ty))
    (hkv : dGet "kvps" d = some PyVal.none)
    (hh : dGet "heading" d = Option.none)
    (hc : dGet "content" d = Option.none)
    (htm : dGet "temp" d = Option.none) :
    deserializeLogItem i (.dict d) = Except.ok
      { no := (i : Int), type := ty, heading := "", content := "",
        kvps := Option.none, temp := false } := by
  simp [deserializeLogItem, asDict, bind_ok, hty, hh, hc, hkv, htm, pyTruthy]

/-- C3 (corrected): a log-entry record containing `type` and a null `kvps`
but lacking `heading`, `content` and `temp` deserializes without raising into
an entry with empty heading and content, absent kvps and `temp = false`;
(the record must carry the `kvps` key — see the counterexample). -/
theorem c3_missing_fields_default (d : List (String × PyVal)) (ty : String)
    (hty : dGet "type" d = some (.str ty))
    (hkv : dGet "kvps" d = some PyVal.none)
    (hh : dGet "heading" d = Option.none)
    (hc : dGet "content" d = Option.none)
    (htm : dGet "temp" d = Option.none) :
    _deserialize_log (some (.dict [("logs", .list [.dict d])])) = Except.ok
      { guid := "fresh-uuid4",
        logs := [{ no := 0, type := ty, heading := "", content := "",
                   kvps := Option.none, temp := false }],
        progress := initialProgress, progress_no := initialProgressNo,
        updates := [0] } := by
  have h2 : deserializeLogItems 0 [.dict d] = Except.ok
      [{ no := 0, type := ty, heading := "", content := "",
         kvps := Option.none, temp := false }] := by
    simp only [deserializeLogItems,
      deserializeLogItem_defaults d ty 0 hty hkv hh hc htm, bind_ok]
    rfl
  have h := deserialize_log_some [("logs", .list [.dict d])] [.dict d] _ rfl h2
  rw [h]
  rfl

/-- Witness for C3 at the two-field record `(type := "util", kvps := null)`. -/
theorem c3_missing_fields_default_witness :
    _deserialize_log (some (.dict [("logs", .list
        [.dict [("type", .str "util"), ("kvps", PyVal.none)]])])) = Except.ok
      { guid := "fresh-uuid4",
        logs := [{ no := 0, type := "util", heading := "", content := "",
                   kvps := Option.none, temp := false }],
        progress := initialProgress, progress_no := initialProgressNo,
        updates := [0] } :=
  c3_missing_fields_default [("type", .str "util"), ("kvps", PyVal.none)]
    "util" rfl rfl rfl rfl rfl

/-- Counterexample to C3 as stated: a log-entry record that has `type` but
lacks the `kvps` key makes `_deserialize_log` raise (`item_data["kvps"]` is a
bracket access), instead of defaulting kvps to absent. -/
theorem c3_missing_kvps_raises :
    _deserialize_log (some (.dict [("logs", .list
        [.dict [("type", .str "util")]])]))
      = Except.error "KeyError: kvps" := rfl

/-- C4 (confirmed). A log with more than `LOG_SIZE` entries serializes to
exactly the last `LOG_SIZE` of them — a suffix of the original list, in its
original relative order — the older prefix being dropped. -/
theorem c4_log_truncation (L : Log) (h : LOG_SIZE < L.logs.length) :
    ∃ old kept, L.logs = old ++ kept ∧ kept.length = LOG_SIZE ∧
      _serialize_log L = .dict
        [("guid", .str L.guid),
         ("logs", .list (kept.map LogItem.output)),
         ("progress", .str L.progress),
         ("progress_no", .int L.progress_no)] := by
  refine ⟨L.logs.take (L.logs.length - LOG_SIZE),
          L.logs.drop (L.logs.length - LOG_SIZE),
          (List.take_append_drop _ _).symm, ?_, rfl⟩
  rw [List.length_drop]
  omega

set_option maxRecDepth 8192 in
/-- Witness for C4 at a 1001-entry log: the serialized output keeps a
1000-entry suffix. -/
theorem c4_log_truncation_witness :
    ∃ old kept,
      (List.replicate 1001 emptyKvpsItem : List LogItem) = old ++ kept ∧
      kept.length = LOG_SIZE ∧
      _serialize_log { guid := "g", logs := List.replicate 1001 emptyKvpsItem,
                       progress := "p", progress_no := 5, updates := [] }
        = .dict
          [("guid", .str "g"),
           ("logs", .list (kept.map LogItem.output)),
           ("progress", .str "p"),
           ("progress_no", .int 5)] :=
  c4_log_truncation
    { guid := "g", logs := List.replicate 1001 emptyKvpsItem,
      progress := "p", progress_no := 5, updates := [] }
    (by simp [LOG_SIZE])

/-- C5 (confirmed). A stored context record carrying a log (and agents,
identity and streaming ordinal) but missing `created_at`, `last_message` and
`type` deserializes without raising, with epoch-zero timestamps and `USER`
type. -/
theorem c5_legacy_defaults (i nm : String) (ags : List Agent) (t : Int)
    (L : Log) :
    ∃ c, _deserialize_context (.dict
        [("id", .str i), ("name", .str nm),
         ("agents", .list (ags.map _serialize_agent)),
         ("streaming_agent", .int t),
         ("log", _serialize_log L)]) = Except.ok c ∧
      c.created_at = some epochZero ∧ c.last_message = some epochZero ∧
      c.type = AgentContextType.USER := by
  exact ⟨_, deserialize_context_ok _ _ epochZero epochZero .USER
    (ags.map _serialize_agent) (rtAgents ags)
    (deserialize_serialize_log L) rfl rfl rfl rfl
    (deserialize_agents_serialize ags), rfl, rfl, rfl⟩

/-- C6 (confirmed). Deserializing the empty agent-record sequence yields the
chain of a single fresh root with ordinal 0 and empty data bag, and no
successful deserialization ever yields an empty chain. -/
theorem c6_empty_chain_synthesis :
    _deserialize_agents [] = Except.ok [Agent.fresh 0] ∧
    Agent.fresh 0 = { number := 0, data := [], history := PyVal.str "" } ∧
    ∀ recs res, _deserialize_agents recs = Except.ok res → res ≠ [] := by
  refine ⟨rfl, rfl, ?_⟩
  intro recs res h
  unfold _deserialize_agents at h
  cases hd : deserializeAgentRecs recs with
  | error e =>
    rw [hd] at h
    exact absurd h (by simp)
  | ok l =>
    rw [hd] at h
    cases l with
    | nil =>
      injection h with h2
      subst h2
      exact List.cons_ne_nil _ _
    | cons a tl =>
      injection h with h2
      subst h2
      exact List.cons_ne_nil _ _

/-- Witness for C6: the synthesized chain of the empty record sequence is
non-empty. -/
theorem c6_empty_chain_synthesis_witness :
    [Agent.fresh 0] ≠ ([] : List Agent) :=
  c6_empty_chain_synthesis.2.2 [] [Agent.fresh 0] c6_empty_chain_synthesis.1

/-- C7 (confirmed). Deserializing a record with a 3-node chain numbered
0,1,2 and stored streaming ordinal 1 resolves the streaming reference to the
node numbered 1; and on any chain, a stored value matching no node's number
makes the walk run off the end and yield an absent reference, never
raising. -/
theorem c7_streaming_resolution :
    (Except.map (fun c => c.streaming_agent)
        (_deserialize_context streamingProbeRec)
      = Except.ok (some { number := 1, data := [], history := PyVal.str "" })) ∧
    ∀ (chain : List Agent) (t : PyVal),
      (∀ a ∈ chain, pyIntEq a.number t = false) →
      resolveStreaming chain t = Option.none := by
  constructor
  · rfl
  · intro chain t
    induction chain with
    | nil => intro h; rfl
    | cons a rest ih =>
      intro h
      have ha := h a (List.mem_cons_self a rest)
      simp only [resolveStreaming, ha, Bool.false_eq_true, if_false]
      exact ih (fun x hx => h x (List.mem_cons_of_mem a hx))

/-- Witness for C7: ordinal 99 matches no node of a 3-node chain and the
walk yields the absent reference. -/
theorem c7_streaming_resolution_witness :
    resolveStreaming [Agent.fresh 0, Agent.fresh 1, Agent.fresh 2] (.int 99)
      = Option.none :=
  c7_streaming_resolution.2 _ _ (by decide)

/-- C10 (confirmed). A stored context record with no `log` field at all
makes `_deserialize_context` raise (the source dereferences the `None`
default), unlike the tolerant defaulting of the other legacy fields. -/
theorem c10_missing_log_raises (d : List (String × PyVal))
    (h : dGet "log" d = Option.none) :
    _deserialize_context (.dict d)
      = Except.error "AttributeError: NoneType has no attribute get" := by
  simp only [_deserialize_context, asDict, bind_ok, h]
  rfl

/-- Witness for C10 at a record holding only an id. -/
theorem c10_missing_log_raises_witness :
    _deserialize_context (.dict [("id", PyVal.str "x")])
      = Except.error "AttributeError: NoneType has no attribute get" :=
  c10_missing_log_raises [("id", PyVal.str "x")] rfl

/-- Consuming a literal prefix leaves the rest of the input. -/
theorem dropLit_append (pre rest : List Char) :
    dropLit pre (pre ++ rest) = some rest := by
  induction pre with
  | nil => rfl
  | cons c cs ih => simp [dropLit, ih]

/-- The string-body parser inverts the escaping, stopping at the closing
quote. -/
theorem parseStr_escChars (s : List Char) :
    ∀ rest, parseStr (escChars s ++ '"' :: rest) = some (s, rest) := by
  induction s with
  | nil => intro rest; rfl
  | cons c cs ih =>
    intro rest
    by_cases hc : c = '"' ∨ c = '\\'
    · simp only [escChars, if_pos hc, List.cons_append]
      simp [parseStr, hc, ih rest]
    · have hc1 : ¬ c = '"' := fun h => hc (Or.inl h)
      have hc2 : ¬ c = '\\' := fun h => hc (Or.inr h)
      simp only [escChars, if_neg hc, List.cons_append]
      simp [parseStr, hc1, hc2, ih rest]

/-- The record parser inverts the record printer, leaving the rest. -/
theorem parseRec_recChars (r : HistRec) (rest : List Char) :
    parseRec (recChars r ++ rest) = some (r, rest) := by
  rcases r with ⟨role, content⟩
  simp only [recChars, List.cons_append, List.append_assoc]
  simp [parseRec, dropLit, dropLit_append, parseStr_escChars]

/-- The record-list parser inverts the comma-joined printer, given enough
fuel. -/
theorem parseRecsAux_joinRecs (h : List HistRec) :
    ∀ fuel, h.length ≤ fuel → h ≠ [] →
      parseRecsAux fuel (joinRecs h ++ [']']) = some h := by
  induction h with
  | nil => intro fuel _ hne; exact absurd rfl hne
  | cons r rs ih =>
    intro fuel hlen _
    cases fuel with
    | zero => simp at hlen
    | succ f =>
      cases rs with
      | nil =>
        show parseRecsAux (f + 1) (recChars r ++ [']']) = some [r]
        simp [parseRecsAux, parseRec_recChars]
      | cons r2 rs2 =>
        show parseRecsAux (f + 1)
          ((recChars r ++ ',' :: ' ' :: joinRecs (r2 :: rs2)) ++ [']'])
          = some (r :: r2 :: rs2)
        rw [List.append_assoc]
        simp [parseRecsAux, parseRec_recChars,
          ih f (by simpa using Nat.le_of_succ_le_succ hlen)
            (List.cons_ne_nil r2 rs2)]

/-- The printed record list is at least as long (in characters) as the
record count, so the input length is always enough fuel. -/
theorem joinRecs_length (h : List HistRec) :
    h ≠ [] → h.length ≤ (joinRecs h).length := by
  induction h with
  | nil => intro hne; exact absurd rfl hne
  | cons r rs ih =>
    intro _
    cases rs with
    | nil => simp [joinRecs, recChars]
    | cons r2 rs2 =>
      have hrec := ih (List.cons_ne_nil r2 rs2)
      simp only [List.length_cons] at hrec
      show (r :: r2 :: rs2).length
        ≤ (recChars r ++ ',' :: ' ' :: joinRecs (r2 :: rs2)).length
      simp only [List.length_append, List.length_cons]
      omega

/-- The modelled JSON decoder inverts the modelled JSON encoder on every
history-record list. -/
theorem parseChars_dumpChars (h : List HistRec) :
    parseChars (dumpChars h) = some h := by
  cases h with
  | nil => rfl
  | cons r rs =>
    cases rs with
    | nil =>
      show parseRecsAux ((joinRecs [r] ++ [']']).length) (joinRecs [r] ++ [']'])
        = some [r]
      exact parseRecsAux_joinRecs [r] _
        (le_trans (joinRecs_length [r] (List.cons_ne_nil r []))
          (by simp)) (List.cons_ne_nil r [])
    | cons r2 rs2 =>
      show parseRecsAux ((joinRecs (r :: r2 :: rs2) ++ [']']).length)
          (joinRecs (r :: r2 :: rs2) ++ [']'])
        = some (r :: r2 :: rs2)
      exact parseRecsAux_joinRecs (r :: r2 :: rs2) _
        (le_trans (joinRecs_length _ (List.cons_ne_nil r (r2 :: rs2)))
          (by simp)) (List.cons_ne_nil r (r2 :: rs2))

/-- Stripping the quote wrapping recovers the JSON text. -/
theorem pyStrip1_wrap (h : List HistRec) :
    pyStrip1 ("'" ++ json_dumps_hist h ++ "'") = String.mk (dumpChars h) := by
  show String.mk ((("'" ++ json_dumps_hist h ++ "'").data.drop 1).dropLast) = _
  rw [show ("'" ++ json_dumps_hist h ++ "'").data.drop 1
    = dumpChars h ++ ['\''] from rfl]
  rw [List.dropLast_concat]

/-- A `SET` makes the following `GET` of the same key see the value. -/
theorem storeGet_storeSet (st : Store) (k v : String) :
    storeGet (storeSet st k v) k = some v := by
  simp [storeGet, storeSet, List.lookup]

/-- Loading right after saving recovers the saved history list: the stored
payload is found, its quote wrapping stripped, and the JSON text decoded. -/
theorem load_history_save_history (st : Store) (cid : String)
    (h : List HistRec) :
    load_history (save_history st cid h) cid = h := by
  have hget : storeGet (save_history st cid h) ("chat_history:" ++ cid)
      = some ("'" ++ json_dumps_hist h ++ "'") :=
    storeGet_storeSet st _ _
  have hhead : ("'" ++ json_dumps_hist h ++ "'").data.head? = some '\'' := rfl
  have hlast : ("'" ++ json_dumps_hist h ++ "'").data.getLast? = some '\'' := by
    rw [show ("'" ++ json_dumps_hist h ++ "'").data
      = ('\'' :: dumpChars h) ++ ['\''] from rfl]
    exact List.getLast?_concat _
  unfold load_history
  rw [hget]
  simp only [hhead, hlast, and_self, if_true, pyStrip1_wrap]
  rw [show json_loads_hist (String.mk (dumpChars h))
    = parseChars (dumpChars h) from rfl, parseChars_dumpChars]

/-- C9 (confirmed). Saving a history list stores, under `chat_history:<id>`,
exactly the JSON text of the list wrapped in literal single-quote
characters, and loading it back — the store payload stripped of its leading
and trailing quote and JSON-decoded — yields exactly the list saved. -/
theorem c9_history_wire_round_trip (st : Store) (cid : String)
    (h : List HistRec) :
    storeGet (save_history st cid h) ("chat_history:" ++ cid)
      = some ("'" ++ json_dumps_hist h ++ "'") ∧
    load_history (save_history st cid h) cid = h :=
  ⟨storeGet_storeSet st _ _, load_history_save_history st cid h⟩

/-- C8 (confirmed). Removing a chat deletes its local marker directory and
overwrites — not deletes — the store's history for `chat_history:<id>` with
the encoded empty list, so that the key afterwards holds an empty-list
value. -/
theorem c8_remove_tombstone (dirs : List String) (st : Store)
    (ctxid : String) :
    get_chat_folder_path ctxid ∉ (remove_chat dirs st ctxid).1 ∧
    storeGet (remove_chat dirs st ctxid).2 ("chat_history:" ++ ctxid)
      = some "'[]'" ∧
    load_history (remove_chat dirs st ctxid).2 ctxid = [] := by
  refine ⟨?_, storeGet_storeSet st _ _,
    load_history_save_history st ctxid []⟩
  simp [remove_chat, files_delete_dir]
